import Mathlib

/-!
Shallow embedding of `compiler/rustc_middle/src/mir/consts.rs`:
MIR constants (`ConstValue`, `Constant`, `ConstantKind`, `UnevaluatedConst`)
and the operations on them (`try_to_scalar`, `eval`, `normalize`,
`try_eval_bits`, `from_anon_const`, `try_get_slice_bytes_for_diagnostics`,
`shrink`).  Identifiers and other compiler entities that the file
manipulates only opaquely (spans, types, def-ids, generic args) are
modelled as natural numbers; queries of the surrounding compiler
(`tcx`) are fields of an explicit context structure `Tcx`.
-/

namespace MirConsts

/-- Opaque interned allocation identifier (`AllocId`). -/
abbrev AllocId := Nat

/-- A byte size (`Size`), measured in bytes. -/
abbrev Size := Nat

/-- Opaque source span (`Span`); only identity matters here. -/
abbrev Span := Nat

/-- Opaque typing environment (`ty::ParamEnv`). -/
abbrev ParamEnv := Nat

/-- Opaque interned type (`Ty`). -/
abbrev Ty := Nat

/-- Opaque definition id (`DefId`). -/
abbrev DefId := Nat

/-- Opaque local definition id (`LocalDefId`); `to_def_id` is the identity
in this model. -/
abbrev LocalDefId := Nat

/-- Opaque HIR body id (`hir::BodyId`). -/
abbrev BodyId := Nat

/-- Opaque generic argument (`GenericArg`); a `GenericArgsRef` is a
list of these. -/
abbrev GenericArg := Nat

/-- Opaque error guarantee token (`ErrorGuaranteed`), the proof that an
error has been reported. -/
abbrev Guar := Nat

/-- Rust `ScalarInt`: an integer scalar together with its size in bytes. -/
structure ScalarInt where
  data : Nat
  size : Size
deriving DecidableEq

/-- A pointer (`Pointer<Option<AllocId>>`): optional provenance plus an
offset; `into_parts` reads the two fields. -/
structure Pointer where
  provenance : Option AllocId
  offset : Size
deriving DecidableEq

/-- Rust `Scalar<AllocId>`: either an integer or a pointer tagged with its
size. -/
inductive Scalar where
  | Int (v : ScalarInt)
  | Ptr (p : Pointer) (sz : Nat)
deriving DecidableEq

/-- Rust `Scalar::try_to_int`: succeeds only on the `Int` variant.
Modelled from the spec: defined in `mir/interpret`, not in this file's
source; an integer scalar yields its `ScalarInt`, a pointer fails. -/
def Scalar.try_to_int : Scalar → Option ScalarInt
  | .Int v => some v
  | .Ptr _ _ => none

/-- Rust `ScalarInt::to_bits(size)`.
Modelled from the spec: defined in `rustc_ty_utils`/`ty` layer, not in this
file's source; succeeds exactly when the requested size equals the stored
size, returning the raw bits. -/
def ScalarInt.to_bits (i : ScalarInt) (size : Size) : Option Nat :=
  if i.size = size then some i.data else none

/-- Rust `Scalar::to_pointer`.
Modelled from the spec: a pointer scalar of pointer size yields its
pointer; an integer scalar of pointer size yields a pointer with no
provenance at that address (a possibly dangling reference); anything else
fails. -/
def Scalar.to_pointer (ptrSize : Nat) : Scalar → Option Pointer
  | .Ptr p sz => if sz = ptrSize then some p else none
  | .Int v => if v.size = ptrSize then some ⟨none, v.data⟩ else none

/-- Rust `Scalar::to_target_usize`.
Modelled from the spec: succeeds on an integer scalar of pointer size,
yielding its value; fails on pointers. -/
def Scalar.to_target_usize (ptrSize : Nat) : Scalar → Option Nat
  | .Int v => if v.size = ptrSize then some v.data else none
  | .Ptr _ _ => none

/-- Rust `ConstAllocation` / the interior of an interned allocation: its
bytes. -/
structure Allocation where
  bytes : List Nat
deriving DecidableEq

/-- Rust `Allocation::size()` in bytes. -/
def Allocation.size (a : Allocation) : Size := a.bytes.length

/-- Rust `inspect_with_uninit_and_ptr_outside_interpreter(start..end)`: the raw
bytes in the given range. -/
def Allocation.inspect (a : Allocation) (start stop : Nat) : List Nat :=
  (a.bytes.drop start).take (stop - start)

/-- Rust `ConstValue`: a constant value in Rust. -/
inductive ConstValue where
  | Scalar (s : Scalar)
  | ZeroSized
  | Slice (data : Allocation) (start : Nat) (stop : Nat)
  | Indirect (alloc_id : AllocId) (offset : Size)
deriving DecidableEq

/-- Rust `ConstValue::try_to_scalar`. -/
def ConstValue.try_to_scalar : ConstValue → Option MirConsts.Scalar
  | .Indirect _ _ | .Slice _ _ _ | .ZeroSized => none
  | .Scalar val => some val

/-- Rust `ty::ValTree`: a type-system constant value, either a leaf
scalar or a branch of subtrees. -/
inductive ValTree where
  | leaf (s : ScalarInt)
  | branch (children : List ValTree)

mutual

/-- Decidable equality of valtrees (the structural `PartialEq`). -/
def ValTree.deq : (a b : ValTree) → Decidable (a = b)
  | .leaf x, .leaf y =>
    if h : x = y then .isTrue (by rw [h]) else .isFalse (by simp [h])
  | .leaf _, .branch _ => .isFalse (by simp)
  | .branch _, .leaf _ => .isFalse (by simp)
  | .branch xs, .branch ys =>
    match ValTree.deqList xs ys with
    | .isTrue h => .isTrue (by rw [h])
    | .isFalse h => .isFalse (by simpa using h)

/-- Decidable equality of lists of valtrees. -/
def ValTree.deqList : (a b : List ValTree) → Decidable (a = b)
  | [], [] => .isTrue rfl
  | [], _ :: _ => .isFalse (by simp)
  | _ :: _, [] => .isFalse (by simp)
  | x :: xs, y :: ys =>
    match ValTree.deq x y with
    | .isFalse h => .isFalse (by simp [h])
    | .isTrue h1 =>
      match ValTree.deqList xs ys with
      | .isTrue h2 => .isTrue (by rw [h1, h2])
      | .isFalse h2 => .isFalse (by simp [h2])

end

instance : DecidableEq ValTree := ValTree.deq

/-- The kind of a type-system constant (`ty::ConstKind`), with the
constructors these operations distinguish; all remaining kinds are
collapsed into `other`. -/
inductive TyConstKind where
  | param (index : Nat) (name : Nat)
  | value (valtree : ValTree)
  | error (guar : Guar)
  | other (tag : Nat)
deriving DecidableEq

/-- A type-system constant (`ty::Const`): a kind together with its
type. -/
structure TyConst where
  kind : TyConstKind
  ty : Ty
deriving DecidableEq

/-- Rust `ty::Const::new_error(tcx, guar, ty)`.
Modelled from the spec: defined in the `ty` layer, not in this file's
source; builds the type-level error sentinel constant carrying the proof
`guar` at type `ty`. -/
def TyConst.new_error (guar : Guar) (ty : Ty) : TyConst :=
  ⟨.error guar, ty⟩

/-- Rust `ErrorHandled`: how a failed const evaluation was handled — either an
error was already reported (carrying the proof), or the value is still
too generic to evaluate.  Each carries the span of the failure. -/
inductive ErrorHandled where
  | reported (guar : Guar) (span : Span)
  | tooGeneric (span : Span)
deriving DecidableEq

/-- Rust `mir::UnevaluatedConst`: an unevaluated, potentially generic
constant used in MIR.  The Rust field `def` is named `def_id` here
(`def` is reserved in Lean). -/
structure UnevaluatedConst where
  def_id : DefId
  args : List GenericArg
  promoted : Option Nat
deriving DecidableEq

/-- Rust `ty::UnevaluatedConst`: the pure type-level reference form. -/
structure TyUnevaluatedConst where
  def_id : DefId
  args : List GenericArg
deriving DecidableEq

/-- Rust `UnevaluatedConst::new(def, args)`: promoted defaults to `None`. -/
def UnevaluatedConst.new (def_id : DefId) (args : List GenericArg) :
    UnevaluatedConst :=
  ⟨def_id, args, none⟩

/-- Rust `UnevaluatedConst::shrink`: `assert_eq!(self.promoted, None)` then
downgrade to the type-level form.  The failed assertion (a fatal internal
compiler error) is modelled as `none`. -/
def UnevaluatedConst.shrink (u : UnevaluatedConst) :
    Option TyUnevaluatedConst :=
  match u.promoted with
  | none => some ⟨u.def_id, u.args⟩
  | some _ => none

/-- The HIR expression shapes `from_anon_const` distinguishes: a resolved
path to a const parameter (`ExprKind::Path(QPath::Resolved(_, Path {
res: Res::Def(DefKind::ConstParam, def_id), .. }))`), a block with
statements and an optional tail expression, and everything else. -/
inductive Expr where
  | pathConstParam (def_id : DefId)
  | block (stmts : List Nat) (tail : Option Expr)
  | other (tag : Nat)

mutual

/-- Decidable equality of HIR expressions. -/
def Expr.deq : (a b : Expr) → Decidable (a = b)
  | .pathConstParam x, .pathConstParam y =>
    if h : x = y then .isTrue (by rw [h]) else .isFalse (by simp [h])
  | .other x, .other y =>
    if h : x = y then .isTrue (by rw [h]) else .isFalse (by simp [h])
  | .block s1 t1, .block s2 t2 =>
    if h : s1 = s2 then
      match Expr.deqOpt t1 t2 with
      | .isTrue h2 => .isTrue (by rw [h, h2])
      | .isFalse h2 => .isFalse (by simp [h2])
    else .isFalse (by simp [h])
  | .pathConstParam _, .block _ _ => .isFalse (by simp)
  | .pathConstParam _, .other _ => .isFalse (by simp)
  | .block _ _, .pathConstParam _ => .isFalse (by simp)
  | .block _ _, .other _ => .isFalse (by simp)
  | .other _, .pathConstParam _ => .isFalse (by simp)
  | .other _, .block _ _ => .isFalse (by simp)

/-- Decidable equality of optional HIR expressions. -/
def Expr.deqOpt : (a b : Option Expr) → Decidable (a = b)
  | none, none => .isTrue rfl
  | none, some _ => .isFalse (by simp)
  | some _, none => .isFalse (by simp)
  | some x, some y =>
    match Expr.deq x y with
    | .isTrue h => .isTrue (by rw [h])
    | .isFalse h => .isFalse (by simp [h])

end

instance : DecidableEq Expr := Expr.deq

/-- A HIR node as returned by `tcx.hir().get_by_def_id`: an anonymous
constant with its body id, or any other node. -/
inductive HirNode where
  | anonConst (body : BodyId)
  | other (tag : Nat)
deriving DecidableEq

/-- The ambient compiler context: the `TyCtxt` queries and out-of-file
helpers that the operations of `mir/consts.rs` invoke, as abstract
functions.  `pointerSize` is `tcx.data_layout.pointer_size`;
`globalAlloc` is `tcx.global_alloc(..).unwrap_memory()` (`none` when the
global alloc is not memory, which `unwrap_memory` turns into a panic);
`readScalar a off sz prov` is `alloc.read_scalar(&tcx, alloc_range(off,
sz), prov)` on the allocation interned with id `a` (`none` models `Err`);
`tyConstEval` is `ty::Const::eval`; `valtreeToConstVal` is
`tcx.valtree_to_const_val`; `constEvalResolve` is
`tcx.const_eval_resolve`; `layoutSize pe ty` is
`tcx.layout_of(pe.with_reveal_all_normalized(tcx).and(ty)).ok().size`;
`hirGet` is `tcx.hir().get_by_def_id`; `body` is `tcx.hir().body(..)
.value`; `typeOf` is `tcx.type_of(..).instantiate_identity`; `defSpan` is
`tcx.def_span`; `parentOf` is `tcx.parent`; `paramIndex item p` is
`tcx.generics_of(item).param_def_id_to_index[&p]`; `itemName` is
`tcx.item_name`; `optParentOwner` composes `tcx.hir().opt_parent_id` with
`HirId::as_owner` (`none` when either fails); `identityForItem` is
`GenericArgs::identity_for_item`; `paramCount` is the number of generic
parameters of an item (`tcx.generics_of(..).count()`). -/
structure Tcx where
  pointerSize : Nat
  globalAlloc : AllocId → Option Allocation
  readScalar : AllocId → Size → Nat → Bool → Option Scalar
  tyConstEval : ParamEnv → TyConst → Option Span → Except ErrorHandled ValTree
  valtreeToConstVal : Ty → ValTree → ConstValue
  constEvalResolve :
    ParamEnv → UnevaluatedConst → Option Span → Except ErrorHandled ConstValue
  layoutSize : ParamEnv → Ty → Option Size
  hirGet : LocalDefId → HirNode
  body : BodyId → Expr
  typeOf : LocalDefId → Ty
  defSpan : LocalDefId → Span
  parentOf : DefId → DefId
  paramIndex : DefId → DefId → Nat
  itemName : DefId → Nat
  optParentOwner : LocalDefId → Option DefId
  identityForItem : DefId → List GenericArg
  paramCount : DefId → Nat

/-- Rust `mir::ConstantKind`. -/
inductive ConstantKind where
  | Ty (c : TyConst)
  | Unevaluated (uv : UnevaluatedConst) (ty : Ty)
  | Val (val : ConstValue) (ty : Ty)
deriving DecidableEq

/-- Rust `mir::Constant`: a span, an optional user-type index and a
literal.  Equality is the derived structural `PartialEq` over all three
fields, which propositional equality of this structure mirrors. -/
structure Constant where
  span : Span
  user_ty : Option Nat
  literal : ConstantKind
deriving DecidableEq

/-- Rust `ConstantKind::ty`. -/
def ConstantKind.ty : ConstantKind → MirConsts.Ty
  | .Ty c => c.ty
  | .Val _ ty => ty
  | .Unevaluated _ ty => ty

/-- Rust `ConstantKind::eval(tcx, param_env, span)`. -/
def ConstantKind.eval (c : ConstantKind) (tcx : Tcx) (pe : ParamEnv)
    (span : Option Span) : Except ErrorHandled ConstValue :=
  match c with
  | .Ty tc =>
    match tcx.tyConstEval pe tc span with
    | .error e => .error e
    | .ok val => .ok (tcx.valtreeToConstVal c.ty val)
  | .Unevaluated uneval _ => tcx.constEvalResolve pe uneval span
  | .Val val _ => .ok val

/-- Rust `ConstantKind::normalize(tcx, param_env)`: normalizes the constant to
a value or an error if possible. -/
def ConstantKind.normalize (c : ConstantKind) (tcx : Tcx) (pe : ParamEnv) :
    ConstantKind :=
  match c.eval tcx pe none with
  | .ok val => .Val val c.ty
  | .error (.reported guar _span) => .Ty (TyConst.new_error guar c.ty)
  | .error (.tooGeneric _span) => c

/-- Rust `ConstantKind::try_eval_scalar(tcx, param_env)`. -/
def ConstantKind.try_eval_scalar (c : ConstantKind) (tcx : Tcx)
    (pe : ParamEnv) : Option Scalar :=
  match c.eval tcx pe none with
  | .error _ => none
  | .ok val => val.try_to_scalar

/-- Rust `ConstantKind::try_eval_scalar_int(tcx, param_env)`. -/
def ConstantKind.try_eval_scalar_int (c : ConstantKind) (tcx : Tcx)
    (pe : ParamEnv) : Option ScalarInt :=
  match c.try_eval_scalar tcx pe with
  | none => none
  | some s => s.try_to_int

/-- Rust `ConstantKind::try_eval_bits(tcx, param_env, ty)`.  The source asserts
`assert_eq!(self.ty(), ty)` after obtaining a scalar int; the failed
assertion (a fatal internal compiler error) is modelled as `Except.error
()`, while `Except.ok` wraps the `Option<u128>` the function returns. -/
def ConstantKind.try_eval_bits (c : ConstantKind) (tcx : Tcx)
    (pe : ParamEnv) (ty : MirConsts.Ty) : Except Unit (Option Nat) :=
  match c.try_eval_scalar_int tcx pe with
  | none => .ok none
  | some int =>
    if c.ty = ty then
      match tcx.layoutSize pe ty with
      | none => .ok none
      | some size => .ok (int.to_bits size)
    else .error ()

/-- Outcome of `try_get_slice_bytes_for_diagnostics`: `bug` is a fatal
internal compiler error (`bug!` or a failing `unwrap_memory`), `absent`
is `None`, `bytes` is `Some(..)` with the extracted bytes. -/
inductive DiagResult where
  | bug
  | absent
  | bytes (bs : List Nat)
deriving DecidableEq

/-- Rust `ConstValue::try_get_slice_bytes_for_diagnostics(tcx)`.  The
`u64 → usize` conversion of the decoded length is the identity here
(both are pointer-sized naturals in this model). -/
def ConstValue.try_get_slice_bytes_for_diagnostics (v : ConstValue)
    (tcx : Tcx) : DiagResult :=
  match v with
  | .Scalar _ => .bug
  | .ZeroSized => .bug
  | .Slice data start stop => .bytes (data.inspect start stop)
  | .Indirect alloc_id offset =>
    match tcx.globalAlloc alloc_id with
    | none => .bug
    | some a =>
      let ptr_size := tcx.pointerSize
      if a.size < offset + 2 * ptr_size then
        .absent
      else
        match tcx.readScalar alloc_id offset ptr_size true with
        | none => .absent
        | some ptrScalar =>
          match ptrScalar.to_pointer ptr_size with
          | none => .absent
          | some ptr =>
            match tcx.readScalar alloc_id (offset + ptr_size) ptr_size false
            with
            | none => .absent
            | some lenScalar =>
              match lenScalar.to_target_usize ptr_size with
              | none => .absent
              | some len =>
                if len = 0 then
                  .bytes []
                else
                  match ptr.provenance with
                  | none => .absent
                  | some inner_alloc_id =>
                    match tcx.globalAlloc inner_alloc_id with
                    | none => .bug
                    | some data =>
                      .bytes (data.inspect ptr.offset (ptr.offset + len))

/-- The one-level block unwrap of `from_anon_const`: a block with no
statements and a tail expression is replaced by its tail, so that
`{ P }` is recognised as a parameter. -/
def unwrapBlock : Expr → Expr
  | .block [] (some e) => e
  | e => e

/-- Whether an expression is a resolved path to a const parameter (the
special case of `from_anon_const`). -/
def Expr.isConstParamPath : Expr → Bool
  | .pathConstParam _ => true
  | _ => false

/-- The combined generic-argument list `from_anon_const` builds for the
anonymous constant `def_`: the identity arguments of the enclosing item
(when the HIR parent exists and is an owner), followed by the identity
arguments of the constant itself. -/
def anonConstArgs (tcx : Tcx) (def_ : LocalDefId) : List GenericArg :=
  (match tcx.optParentOwner def_ with
   | some parent_did => tcx.identityForItem parent_did
   | none => []) ++
  tcx.identityForItem def_

/-- The `UnevaluatedConst` that `from_anon_const` builds and hands to
`const_eval_resolve`: the constant's own def-id with the combined
argument list. -/
def anonConstUneval (tcx : Tcx) (def_ : LocalDefId) : UnevaluatedConst :=
  UnevaluatedConst.new def_ (anonConstArgs tcx def_)

/-- Rust `ConstantKind::from_anon_const(tcx, def, param_env)`.  The `span_bug!`
on a non-anonymous-constant node is modelled as `none`. -/
def ConstantKind.from_anon_const (tcx : Tcx) (def_ : LocalDefId)
    (pe : ParamEnv) : Option ConstantKind :=
  match tcx.hirGet def_ with
  | .other _ => none
  | .anonConst body_id =>
    let expr := unwrapBlock (tcx.body body_id)
    let ty := tcx.typeOf def_
    match expr with
    | .pathConstParam def_id =>
      let item_def_id := tcx.parentOf def_id
      let index := tcx.paramIndex item_def_id def_id
      let name := tcx.itemName def_id
      some (.Ty ⟨.param index name, ty⟩)
    | _ =>
      let did := def_
      let span := tcx.defSpan def_
      match tcx.constEvalResolve pe (anonConstUneval tcx def_) (some span)
      with
      | .ok val => some (.Val val ty)
      | .error _ =>
        some (.Unevaluated ⟨did, tcx.identityForItem did, none⟩ ty)

/-- A context `tcx` under which no type-system constant successfully
evaluates: error constants report their stored proof, everything else is
too generic, and `const_eval_resolve` is too generic.  Used to evaluate
the theorems below on concrete inputs. -/
def tcxW : Tcx :=
  Tcx.mk 8 (fun _ => none) (fun _ _ _ _ => none)
    (fun _ c _ =>
      match c.kind with
      | .error g => .error (.reported g 0)
      | _ => .error (.tooGeneric 0))
    (fun _ _ => .ZeroSized)
    (fun _ _ _ => .error (.tooGeneric 0))
    (fun _ _ => some 4)
    (fun _ => .anonConst 0) (fun _ => .other 0) (fun _ => 0) (fun _ => 0)
    (fun d => d) (fun _ _ => 0) (fun _ => 0) (fun _ => none) (fun _ => [])
    (fun _ => 0)

/-- A context with two concrete memory allocations: allocation 0 holds
16 zero bytes and every scalar read from it decodes to the zero integer
of pointer size (so the decoded wide pointer is dangling and the decoded
length is 0); allocation 1 holds only 4 bytes. -/
def tcxMem : Tcx :=
  Tcx.mk 8
    (fun i =>
      if i = 0 then some ⟨List.replicate 16 0⟩
      else if i = 1 then some ⟨[0, 0, 0, 0]⟩ else none)
    (fun _ _ _ _ => some (.Int ⟨0, 8⟩))
    (fun _ _ _ => .error (.tooGeneric 0))
    (fun _ _ => .ZeroSized)
    (fun _ _ _ => .error (.tooGeneric 0))
    (fun _ _ => some 4)
    (fun _ => .anonConst 0) (fun _ => .other 0) (fun _ => 0) (fun _ => 0)
    (fun d => d) (fun _ _ => 0) (fun _ => 0) (fun _ => none) (fun _ => [])
    (fun _ => 0)

/-- A context describing one anonymous constant: def-id 0 is an anonymous
constant whose body is a non-parameter expression, whose HIR parent is
the owner item 100 with one generic parameter (identity argument `[5]`),
while the constant itself has no parameters; const evaluation always
fails as too generic. -/
def tcxAnon : Tcx :=
  Tcx.mk 8 (fun _ => none) (fun _ _ _ _ => none)
    (fun _ _ _ => .error (.tooGeneric 0))
    (fun _ _ => .ZeroSized)
    (fun _ _ _ => .error (.tooGeneric 0))
    (fun _ _ => some 4)
    (fun _ => .anonConst 0) (fun _ => .other 0) (fun _ => 7) (fun _ => 0)
    (fun d => d) (fun _ _ => 0) (fun _ => 0)
    (fun d => if d = 0 then some 100 else none)
    (fun d => if d = 100 then [5] else [])
    (fun d => if d = 100 then 1 else 0)

/-- Like `tcxAnon`, but const evaluation always succeeds with the
zero-sized value. -/
def tcxAnonOk : Tcx :=
  Tcx.mk 8 (fun _ => none) (fun _ _ _ _ => none)
    (fun _ _ _ => .error (.tooGeneric 0))
    (fun _ _ => .ZeroSized)
    (fun _ _ _ => .ok .ZeroSized)
    (fun _ _ => some 4)
    (fun _ => .anonConst 0) (fun _ => .other 0) (fun _ => 7) (fun _ => 0)
    (fun d => d) (fun _ _ => 0) (fun _ => 0)
    (fun d => if d = 0 then some 100 else none)
    (fun d => if d = 100 then [5] else [])
    (fun d => if d = 100 then 1 else 0)

/-- A context `tcx` reports errors on error constants when evaluating the
type-level error sentinel yields `Reported` with the same stored proof.
This is how `ty::Const::eval` behaves on `ConstKind::Error` (outside this
file's source); `normalize` is idempotent under it. -/
def ErrorConstsReport (tcx : Tcx) : Prop :=
  ∀ pe guar ty sp, ∃ s,
    tcx.tyConstEval pe (TyConst.new_error guar ty) sp
      = .error (.reported guar s)

/-- C6: `try_to_scalar()` returns `Some` with exactly the wrapped scalar
on the `Scalar` variant, and `None` (totally, without panicking) on
`ZeroSized`, `Slice` and `Indirect`. -/
theorem C6_try_to_scalar_spec :
    (∀ s : Scalar, (ConstValue.Scalar s).try_to_scalar = some s) ∧
    ConstValue.ZeroSized.try_to_scalar = none ∧
    (∀ d st en, (ConstValue.Slice d st en).try_to_scalar = none) ∧
    (∀ a o, (ConstValue.Indirect a o).try_to_scalar = none) :=
  ⟨fun _ => rfl, rfl, fun _ _ _ => rfl, fun _ _ => rfl⟩

/-- C9: `shrink()` on an `UnevaluatedConst` with a present promoted index
fails fast with a fatal assertion (modelled as `none`) rather than
silently discarding the index; with no promoted index it returns the
type-level form with the same definition identity and generic
arguments. -/
theorem C9_shrink_spec :
    (∀ (u : UnevaluatedConst) (p : Nat), u.promoted = some p →
      u.shrink = none) ∧
    (∀ u : UnevaluatedConst, u.promoted = none →
      u.shrink = some ⟨u.def_id, u.args⟩) := by
  constructor
  · intro u p h
    unfold UnevaluatedConst.shrink
    rw [h]
  · intro u h
    unfold UnevaluatedConst.shrink
    rw [h]

/-- Witness for C9 at concrete unevaluated constants. -/
theorem C9_shrink_spec_witness :
    (UnevaluatedConst.mk 1 [2] (some 0)).shrink = none ∧
    (UnevaluatedConst.mk 1 [2] none).shrink = some ⟨1, [2]⟩ :=
  ⟨C9_shrink_spec.1 ⟨1, [2], some 0⟩ 0 rfl, C9_shrink_spec.2 ⟨1, [2], none⟩ rfl⟩

/-- C5 counterexample: two `Constant`s that agree on `user_ty` and
`literal` but differ only in `span` are NOT equal — the derived
structural `PartialEq` of `Constant` compares the `span` field too. -/
theorem C5_counterexample :
    (Constant.mk 0 none (.Val .ZeroSized 0)).user_ty
      = (Constant.mk 1 none (.Val .ZeroSized 0)).user_ty ∧
    (Constant.mk 0 none (.Val .ZeroSized 0)).literal
      = (Constant.mk 1 none (.Val .ZeroSized 0)).literal ∧
    Constant.mk 0 none (.Val .ZeroSized 0)
      ≠ Constant.mk 1 none (.Val .ZeroSized 0) := by
  refine ⟨rfl, rfl, ?_⟩
  decide

/-- C5 amended: the `span` field IS part of the derived equality of
`Constant`: two `Constant`s are equal iff they agree on `span`,
`user_ty` and `literal`. -/
theorem C5_span_in_equality (a b : Constant) :
    a = b ↔ a.span = b.span ∧ a.user_ty = b.user_ty ∧ a.literal = b.literal := by
  constructor
  · rintro rfl
    exact ⟨rfl, rfl, rfl⟩
  · rintro ⟨h1, h2, h3⟩
    cases a
    cases b
    simp_all

/-- Witness for C5 amended at concrete constants. -/
theorem C5_span_in_equality_witness :
    Constant.mk 0 none (.Val .ZeroSized 0)
      = Constant.mk 0 none (.Val .ZeroSized 0) :=
  (C5_span_in_equality _ _).mpr ⟨rfl, rfl, rfl⟩

/-- C2: when `eval` fails with `Reported(guar)`, `normalize` rewrites the
node into the type-level error sentinel carrying that proof; when `eval`
fails with `TooGeneric`, `normalize` returns the receiver unchanged.
The two failure modes are handled by distinct branches. -/
theorem C2_normalize_failure_modes (tcx : Tcx) (pe : ParamEnv)
    (c : ConstantKind) :
    (∀ guar sp, c.eval tcx pe none = .error (.reported guar sp) →
      c.normalize tcx pe = .Ty (TyConst.new_error guar c.ty)) ∧
    (∀ sp, c.eval tcx pe none = .error (.tooGeneric sp) →
      c.normalize tcx pe = c) := by
  constructor
  · intro guar sp h
    unfold ConstantKind.normalize
    rw [h]
  · intro sp h
    unfold ConstantKind.normalize
    rw [h]

/-- Witness for C2: under `tcxW`, an error constant normalizes to the
error sentinel and a too-generic unevaluated constant is returned
unchanged. -/
theorem C2_normalize_failure_modes_witness :
    (ConstantKind.Ty ⟨.error 3, 7⟩).normalize tcxW 0
      = .Ty (TyConst.new_error 3 7) ∧
    (ConstantKind.Unevaluated ⟨0, [], none⟩ 9).normalize tcxW 0
      = .Unevaluated ⟨0, [], none⟩ 9 :=
  ⟨(C2_normalize_failure_modes tcxW 0 _).1 3 0 rfl,
   (C2_normalize_failure_modes tcxW 0 _).2 0 rfl⟩

/-- C1: `normalize` is idempotent — re-normalizing a normalized constant
is a no-op — in any context where the type-level error sentinel
evaluates to `Reported` with its stored proof (how `ty::Const::eval`
behaves on `ConstKind::Error`). -/
theorem C1_normalize_idempotent (tcx : Tcx) (pe : ParamEnv)
    (herr : ErrorConstsReport tcx) (c : ConstantKind) :
    (c.normalize tcx pe).normalize tcx pe = c.normalize tcx pe := by
  cases h : c.eval tcx pe none with
  | ok val =>
    have h1 : c.normalize tcx pe = .Val val c.ty := by
      unfold ConstantKind.normalize
      rw [h]
    rw [h1]
    unfold ConstantKind.normalize
    simp [ConstantKind.eval, ConstantKind.ty]
  | error e =>
    cases e with
    | reported guar sp =>
      have h1 : c.normalize tcx pe = .Ty (TyConst.new_error guar c.ty) := by
        unfold ConstantKind.normalize
        rw [h]
      obtain ⟨s, hs⟩ := herr pe guar c.ty none
      have he : (ConstantKind.Ty (TyConst.new_error guar c.ty)).eval tcx pe
          none = .error (.reported guar s) := by
        simp [ConstantKind.eval, hs]
      rw [h1]
      unfold ConstantKind.normalize
      rw [he]
      rfl
    | tooGeneric sp =>
      have h1 : c.normalize tcx pe = c := by
        unfold ConstantKind.normalize
        rw [h]
      rw [h1]
      exact h1

/-- Witness for C1: `tcxW` reports errors on error constants, and a
concrete constant normalizes idempotently under it. -/
theorem C1_normalize_idempotent_witness :
    ((ConstantKind.Unevaluated ⟨0, [], none⟩ 9).normalize tcxW 0).normalize
        tcxW 0
      = (ConstantKind.Unevaluated ⟨0, [], none⟩ 9).normalize tcxW 0 :=
  C1_normalize_idempotent tcxW 0 (fun _ _ _ _ => ⟨0, rfl⟩) _

/-- C10: `try_eval_bits` carries a fatal precondition — when the constant
evaluates to a scalar int, passing any `ty` other than the constant's
own type aborts with the internal assertion (modelled as `.error ()`)
instead of returning `None`; passing the constant's own type never
trips the assertion. -/
theorem C10_try_eval_bits_assert (tcx : Tcx) (pe : ParamEnv)
    (c : ConstantKind) (ty : MirConsts.Ty) :
    (∀ i, c.try_eval_scalar_int tcx pe = some i → c.ty ≠ ty →
      c.try_eval_bits tcx pe ty = .error ()) ∧
    (c.ty = ty → c.try_eval_bits tcx pe ty ≠ .error ()) := by
  constructor
  · intro i h hty
    unfold ConstantKind.try_eval_bits
    rw [h]
    simp [hty]
  · intro hty
    unfold ConstantKind.try_eval_bits
    cases c.try_eval_scalar_int tcx pe with
    | none => simp
    | some i =>
      simp only [hty, if_true, eq_self_iff_true]
      cases tcx.layoutSize pe ty with
      | none => simp
      | some s => simp

/-- Witness for C10: a scalar-int valued constant of type 0 aborts when
queried at type 1 and does not abort when queried at its own type. -/
theorem C10_try_eval_bits_assert_witness :
    (ConstantKind.Val (.Scalar (.Int ⟨5, 4⟩)) 0).try_eval_bits tcxW 0 1
      = .error () ∧
    (ConstantKind.Val (.Scalar (.Int ⟨5, 4⟩)) 0).try_eval_bits tcxW 0 0
      ≠ .error () :=
  ⟨(C10_try_eval_bits_assert tcxW 0 _ 1).1 ⟨5, 4⟩ rfl (by decide),
   (C10_try_eval_bits_assert tcxW 0 _ 0).2 rfl⟩

/-- C7: slice-byte extraction on an `Indirect` value whose backing
allocation is smaller than `offset + 2 × pointer_size` returns absence
(`None`), treating it as a (partially) dangling reference. -/
theorem C7_dangling_reference (tcx : Tcx) (alloc_id : AllocId)
    (offset : Size) (a : Allocation)
    (ha : tcx.globalAlloc alloc_id = some a)
    (hsize : a.size < offset + 2 * tcx.pointerSize) :
    (ConstValue.Indirect alloc_id offset).try_get_slice_bytes_for_diagnostics
        tcx
      = .absent := by
  unfold ConstValue.try_get_slice_bytes_for_diagnostics
  simp only [ha]
  rw [if_pos hsize]

/-- Witness for C7: allocation 1 of `tcxMem` holds 4 bytes, smaller than
`0 + 2 × 8`. -/
theorem C7_dangling_reference_witness :
    (ConstValue.Indirect 1 0).try_get_slice_bytes_for_diagnostics tcxMem
      = .absent :=
  C7_dangling_reference tcxMem 1 0 ⟨[0, 0, 0, 0]⟩ rfl (by decide)

/-- C8: slice-byte extraction on an `Indirect` value whose decoded length
field is 0 returns the empty byte sequence, for every decoded data
pointer (dangling or not) and without resolving any target
allocation. -/
theorem C8_zero_length_slice (tcx : Tcx) (alloc_id : AllocId)
    (offset : Size) (a : Allocation) (ptrScalar : Scalar) (ptr : Pointer)
    (lenScalar : Scalar)
    (ha : tcx.globalAlloc alloc_id = some a)
    (hsize : ¬ a.size < offset + 2 * tcx.pointerSize)
    (hr1 : tcx.readScalar alloc_id offset tcx.pointerSize true
      = some ptrScalar)
    (hp : ptrScalar.to_pointer tcx.pointerSize = some ptr)
    (hr2 : tcx.readScalar alloc_id (offset + tcx.pointerSize)
      tcx.pointerSize false = some lenScalar)
    (hlen : lenScalar.to_target_usize tcx.pointerSize = some 0) :
    (ConstValue.Indirect alloc_id offset).try_get_slice_bytes_for_diagnostics
        tcx
      = .bytes [] := by
  unfold ConstValue.try_get_slice_bytes_for_diagnostics
  simp only [ha, hr1, hp, hr2, hlen]
  rw [if_neg hsize]
  simp

/-- Witness for C8: in `tcxMem`, allocation 0 decodes to a dangling wide
pointer (no provenance) with length 0, and extraction yields the empty
sequence. -/
theorem C8_zero_length_slice_witness :
    (ConstValue.Indirect 0 0).try_get_slice_bytes_for_diagnostics tcxMem
      = .bytes [] :=
  C8_zero_length_slice tcxMem 0 0 ⟨List.replicate 16 0⟩ (.Int ⟨0, 8⟩)
    ⟨none, 0⟩ (.Int ⟨0, 8⟩) rfl (by decide) rfl (by decide) rfl (by decide)

/-- C3: the `UnevaluatedConst` that `from_anon_const` builds for an
anonymous constant nested in a generic parent carries the parent's
identity arguments followed by the child's, so its length is the
parent's parameter count plus the child's, with the parent's identity
arguments in the leading positions. -/
theorem C3_combined_args (tcx : Tcx) (def_ : LocalDefId) (p : DefId)
    (hid : ∀ d, (tcx.identityForItem d).length = tcx.paramCount d)
    (hp : tcx.optParentOwner def_ = some p) :
    (anonConstUneval tcx def_).args.length
      = tcx.paramCount p + tcx.paramCount def_ ∧
    (anonConstUneval tcx def_).args.take (tcx.paramCount p)
      = tcx.identityForItem p := by
  unfold anonConstUneval UnevaluatedConst.new anonConstArgs
  rw [hp]
  constructor
  · simp [hid]
  · rw [← hid p]
    exact List.take_left _ _

/-- Witness for C3: in `tcxAnon`, the parent item 100 has one parameter
with identity argument 5 and the child has none. -/
theorem C3_combined_args_witness :
    (anonConstUneval tcxAnon 0).args.length
      = tcxAnon.paramCount 100 + tcxAnon.paramCount 0 ∧
    (anonConstUneval tcxAnon 0).args.take (tcxAnon.paramCount 100)
      = tcxAnon.identityForItem 100 :=
  C3_combined_args tcxAnon 0 100
    (by
      intro d
      unfold tcxAnon
      by_cases h : d = 100 <;> simp [h])
    rfl

/-- C4 counterexample: in `tcxAnon` evaluation of the anonymous constant
0 fails, and `from_anon_const` returns an `Unevaluated` node whose
argument list is the child's identity arguments `[]`, NOT the full
instantiation `[5]` (parent argument prepended) that was used for the
evaluation attempt. -/
theorem C4_counterexample :
    ConstantKind.from_anon_const tcxAnon 0 0
      = some (.Unevaluated ⟨0, [], none⟩ 7) ∧
    (anonConstUneval tcxAnon 0).args = [5] ∧
    ConstantKind.from_anon_const tcxAnon 0 0
      ≠ some (.Unevaluated (anonConstUneval tcxAnon 0) 7) := by
  refine ⟨rfl, rfl, ?_⟩
  decide

/-- C4 amended: on a non-parameter anonymous constant,
`from_anon_const` attempts eager evaluation with the full (parent ++
child) instantiation; on success it returns a `Val` node with the
evaluated value; on failure it returns an `Unevaluated` node that keeps
the definition but carries only the constant's own identity arguments
(the prepended parent arguments are not kept), with no promoted
index. -/
theorem C4_eager_eval_amended (tcx : Tcx) (pe : ParamEnv)
    (def_ : LocalDefId) (body_id : BodyId)
    (hnode : tcx.hirGet def_ = .anonConst body_id)
    (hexpr : (unwrapBlock (tcx.body body_id)).isConstParamPath = false) :
    (∀ val,
      tcx.constEvalResolve pe (anonConstUneval tcx def_)
          (some (tcx.defSpan def_)) = .ok val →
      ConstantKind.from_anon_const tcx def_ pe
        = some (.Val val (tcx.typeOf def_))) ∧
    (∀ e,
      tcx.constEvalResolve pe (anonConstUneval tcx def_)
          (some (tcx.defSpan def_)) = .error e →
      ConstantKind.from_anon_const tcx def_ pe
        = some (.Unevaluated ⟨def_, tcx.identityForItem def_, none⟩
            (tcx.typeOf def_))) := by
  have hmain : ∀ r, tcx.constEvalResolve pe (anonConstUneval tcx def_)
        (some (tcx.defSpan def_)) = r →
      ConstantKind.from_anon_const tcx def_ pe
        = match r with
          | .ok val => some (.Val val (tcx.typeOf def_))
          | .error _ =>
            some (.Unevaluated ⟨def_, tcx.identityForItem def_, none⟩
              (tcx.typeOf def_)) := by
    intro r hr
    unfold ConstantKind.from_anon_const
    rw [hnode]
    simp only []
    cases hE : unwrapBlock (tcx.body body_id) with
    | pathConstParam d =>
      rw [hE] at hexpr
      simp [Expr.isConstParamPath] at hexpr
    | block s t =>
      rw [hr]
    | other t =>
      rw [hr]
  constructor
  · intro val h
    exact (hmain _ h).trans rfl
  · intro e h
    exact (hmain _ h).trans rfl

/-- Witness for C4 amended: under `tcxAnonOk` evaluation succeeds and a
`Val` node is returned; under `tcxAnon` it fails and the `Unevaluated`
node carries the child's identity arguments. -/
theorem C4_eager_eval_amended_witness :
    ConstantKind.from_anon_const tcxAnonOk 0 0
      = some (.Val .ZeroSized (tcxAnonOk.typeOf 0)) ∧
    ConstantKind.from_anon_const tcxAnon 0 0
      = some (.Unevaluated ⟨0, tcxAnon.identityForItem 0, none⟩
          (tcxAnon.typeOf 0)) :=
  ⟨(C4_eager_eval_amended tcxAnonOk 0 0 0 rfl rfl).1 .ZeroSized rfl,
   (C4_eager_eval_amended tcxAnon 0 0 0 rfl rfl).2 (.tooGeneric 0) rfl⟩

end MirConsts
